import Mathlib

/-!
Verification development for the HMRC risk-scoring engine and its form layer.

The repository ships the React form layer (AssessmentPage.jsx, ResultsPage.jsx)
and a product-requirements document; the FastAPI scoring backend itself is not
part of the source tree, so the engine components (derived metrics, rule table,
band classifier, orchestrator, validator, simulation) are modelled from the
specification, while the form-layer definitions are translated directly from
the JSX sources.  Monetary amounts are modelled as rationals.
-/

namespace HmrcRisk

/-- Indicator weight, the duck-typed strings low, medium, high of the rule table. -/
inductive Weight where
  | low
  | medium
  | high
  deriving DecidableEq

/-- Modelled from the spec: the single source of truth mapping a weight to its
fixed point value (low = 5, medium = 10, high = 15), part of the missing
backend rule table. -/
def Weight.points : Weight → Nat
  | .low => 5
  | .medium => 10
  | .high => 15

/-- Risk band LOW / MODERATE / HIGH. -/
inductive RiskBand where
  | LOW
  | MODERATE
  | HIGH
  deriving DecidableEq

/-- Modelled from the spec: the missing backend Band Classifier.  The score is
clamped to the interval from 0 to 100 and then banded with the fixed cutoffs
LOW below 25, MODERATE below 50, HIGH up to 100 (PRD: LOW 0-24, MODERATE
25-49, HIGH 50-100). -/
def band (s : Int) : RiskBand :=
  let c := max 0 (min 100 s)
  if c < 25 then .LOW else if c < 50 then .MODERATE else .HIGH

/-- AssessmentInput, the immutable value object submitted once per assessment
(field list from the V2 form data of AssessmentPage.jsx and the spec data
model). -/
structure AssessmentInput where
  tax_year : String
  industry : String
  turnover : ℚ
  total_expenses : ℚ
  motor_costs : ℚ
  mileage_claimed : ℚ
  method : String
  home_office_amount : ℚ
  phone_internet : ℚ
  travel_subsistence : ℚ
  marketing : ℚ
  loss_this_year : Bool
  loss_last_year : Bool
  has_other_income : Bool
  employment_income : ℚ
  rental_income : ℚ
  dividends_income : ℚ
  interest_income : ℚ
  has_foreign_income : Bool
  foreign_income : ℚ
  has_capital_allowances : Bool
  capital_allowances_amount : ℚ
  capital_allowances_method : String
  has_loss_carry_forward : Bool
  loss_carry_forward_amount : ℚ
  report_type : String
  deriving DecidableEq

/-- Modelled from the spec: the single documented sentinel used by the missing
Derived Metrics Calculator when a ratio would divide by a non-positive
turnover; a high value so that high-ratio rules trigger rather than crash. -/
def zeroTurnoverSentinel : ℚ := 10

/-- Modelled from the spec: ratio with the zero/negative-turnover policy of the
missing Derived Metrics Calculator. -/
def ratioOrSentinel (num den : ℚ) : ℚ :=
  if den ≤ 0 then zeroTurnoverSentinel else num / den

/-- DerivedMetrics computed from an AssessmentInput. -/
structure DerivedMetrics where
  profit : ℚ
  expense_ratio : ℚ
  motor_ratio : ℚ
  profit_ratio : ℚ
  deriving DecidableEq

/-- Modelled from the spec: the missing Derived Metrics Calculator.  Profit is
turnover minus total expenses and may be negative; the three ratios divide by
turnover under the sentinel policy. -/
def derivedMetrics (i : AssessmentInput) : DerivedMetrics :=
  { profit := i.turnover - i.total_expenses
    expense_ratio := ratioOrSentinel i.total_expenses i.turnover
    motor_ratio := ratioOrSentinel i.motor_costs i.turnover
    profit_ratio := ratioOrSentinel (i.turnover - i.total_expenses) i.turnover }

/-- Modelled from the spec: low-profit-margin cutoff (thresholds are
product-tunable configuration; values chosen consistent with the worked
example of spec section 8). -/
def lowMarginThreshold : ℚ := 1/10

/-- Modelled from the spec: high-expense-ratio cutoff (the section 8 example
expense ratio 0.8 triggers it). -/
def highExpenseThreshold : ℚ := 7/10

/-- Modelled from the spec: high-motor-ratio cutoff (the section 8 example
motor ratio 0.267 triggers it). -/
def highMotorThreshold : ℚ := 1/4

/-- Modelled from the spec: profit-ratio cutoff of the non-scoring
high-profit-margin contextual note. -/
def highMarginThreshold : ℚ := 3/10

/-- Modelled from the spec: mileage above which a claim without actual-cost
detail is flagged. -/
def largeMileageThreshold : ℚ := 10000

/-- Modelled from the spec: home-office amount as a share of turnover above
which the claim is flagged as disproportionate. -/
def homeOfficeShareThreshold : ℚ := 1/10

/-- Modelled from the spec: travel and subsistence share of turnover above
which the claim is flagged. -/
def highTravelThreshold : ℚ := 3/20

/-- The industry id whose profile carries the motor-cost exception. -/
def phvIndustryId : String := "phv_taxi"

/-- A scoring rule of the static Indicator Rule Table: a pure condition over
the input and its derived metrics, plus a fixed weight. -/
structure IndicatorRule where
  id : String
  name : String
  weight : Weight
  cond : AssessmentInput → DerivedMetrics → Bool

/-- A non-scoring contextual-note rule: same shape minus the weight. -/
structure NoteRule where
  id : String
  text : String
  cond : AssessmentInput → DerivedMetrics → Bool

/-- Modelled from the spec: the missing static Indicator Rule Table, in
declaration order, covering the twelve indicator families of spec section 4.3.
The generic high-motor-cost rule embeds the PHV industry exception: for the
PHV industry the condition is suppressed entirely and a contextual note is
produced instead. -/
def indicatorTable : List IndicatorRule :=
  [ { id := "low_profit_margin", name := "Low profit margin", weight := .medium,
      cond := fun _ m => decide (m.profit_ratio < lowMarginThreshold) }
  , { id := "high_expense_ratio", name := "High expense ratio", weight := .high,
      cond := fun _ m => decide (highExpenseThreshold ≤ m.expense_ratio) }
  , { id := "high_motor_ratio", name := "High motor costs", weight := .medium,
      cond := fun i m => decide (highMotorThreshold ≤ m.motor_ratio) && !(i.industry == phvIndustryId) }
  , { id := "large_mileage_claim", name := "Large mileage claim", weight := .low,
      cond := fun i _ => decide (largeMileageThreshold ≤ i.mileage_claimed) && !(i.method == "actual") }
  , { id := "home_office_disproportionate", name := "Home office claim disproportionate", weight := .low,
      cond := fun i _ => decide (0 < i.home_office_amount)
        && decide (homeOfficeShareThreshold ≤ ratioOrSentinel i.home_office_amount i.turnover) }
  , { id := "high_travel_subsistence", name := "High travel and subsistence", weight := .low,
      cond := fun i _ => decide (0 < i.travel_subsistence)
        && decide (highTravelThreshold ≤ ratioOrSentinel i.travel_subsistence i.turnover) }
  , { id := "consecutive_losses", name := "Consecutive-year losses", weight := .high,
      cond := fun i _ => i.loss_this_year && i.loss_last_year }
  , { id := "declared_loss", name := "Declared loss", weight := .medium,
      cond := fun i m => decide (m.profit ≤ 0) || i.loss_this_year }
  , { id := "other_income", name := "Other income complexity", weight := .low,
      cond := fun i _ => i.has_other_income }
  , { id := "foreign_income", name := "Foreign income", weight := .low,
      cond := fun i _ => i.has_foreign_income }
  , { id := "capital_allowances", name := "Capital allowances claimed", weight := .low,
      cond := fun i _ => i.has_capital_allowances }
  , { id := "loss_carry_forward", name := "Loss carry-forward claimed", weight := .low,
      cond := fun i _ => i.has_loss_carry_forward } ]

/-- Modelled from the spec: the high-profit-margin condition, which must never
add points and only surfaces a contextual note. -/
def highMarginRule : NoteRule :=
  { id := "high_profit_margin"
    text := "High profit margin noted: above-average profitability is informational only."
    cond := fun i m => decide (0 < i.turnover) && decide (highMarginThreshold ≤ m.profit_ratio) }

/-- Modelled from the spec: the PHV industry motor-cost exception note,
produced instead of the generic high-motor-cost indicator. -/
def phvMotorRule : NoteRule :=
  { id := "phv_motor_note"
    text := "High motor costs are typical for PHV and taxi drivers; noted for context only."
    cond := fun i m => (i.industry == phvIndustryId) && decide (highMotorThreshold ≤ m.motor_ratio) }

/-- Modelled from the spec: the contextual-note rules of the missing Industry
Profile Table and informational conditions. -/
def noteTable : List NoteRule := [highMarginRule, phvMotorRule]

/-- A triggered indicator together with its fixed points, as listed in a
ScoreResult. -/
structure TriggeredIndicator where
  id : String
  name : String
  weight : Weight
  points : Nat
  deriving DecidableEq

/-- ScoreResult, the output of the scoring engine. -/
structure ScoreResult where
  score : Nat
  band : RiskBand
  triggered_indicators : List TriggeredIndicator
  contextual_notes : List String
  deriving DecidableEq

/-- Modelled from the spec: the missing Rule Evaluator and orchestrator core,
parameterised by the contextual-note rules so that disabling a note rule is
expressible.  Indicators are evaluated in declaration order; the score is the
sum of triggered points clamped to 100; notes never feed the score. -/
def evalWith (noteRules : List NoteRule) (i : AssessmentInput) : ScoreResult :=
  let m := derivedMetrics i
  let trig := indicatorTable.filterMap fun r =>
    if r.cond i m then some { id := r.id, name := r.name, weight := r.weight, points := r.weight.points }
    else none
  let sc := min 100 (trig.map (fun t => t.points)).sum
  { score := sc
    band := band (sc : Int)
    triggered_indicators := trig
    contextual_notes := noteRules.filterMap fun n => if n.cond i m then some n.text else none }

/-- Modelled from the spec: score(input) without the consistency gate, the
function shared by the submission path (after validation) and the simulation
path. -/
def evaluateUnchecked (i : AssessmentInput) : ScoreResult :=
  evalWith noteTable i

/-- The error taxonomy of the engine. -/
inductive EngineError where
  | ConsistencyError
  | MalformedInputError
  deriving DecidableEq

/-- Modelled from the spec: the missing public entry point evaluate, composing
the Consistency Validator (loss flag set while computed profit is positive is
a structured rejection) with the unchecked scoring engine. -/
def evaluate (i : AssessmentInput) : Except EngineError ScoreResult :=
  if i.loss_this_year = true ∧ 0 < (derivedMetrics i).profit then
    .error .ConsistencyError
  else
    .ok (evaluateUnchecked i)

/-- The explicit typed overrides structure of the simulation entry point: the
four mutable fields of ResultsPage.jsx simData. -/
structure SimOverrides where
  total_expenses : Option ℚ
  motor_costs : Option ℚ
  mileage_claimed : Option ℚ
  loss_this_year : Option Bool

/-- Modelled from the spec: apply the overrides onto a copy of the baseline
input, touching only the four mutable fields. -/
def applyOverrides (b : AssessmentInput) (o : SimOverrides) : AssessmentInput :=
  { b with
    total_expenses := o.total_expenses.getD b.total_expenses
    motor_costs := o.motor_costs.getD b.motor_costs
    mileage_claimed := o.mileage_claimed.getD b.mileage_claimed
    loss_this_year := o.loss_this_year.getD b.loss_this_year }

/-- The response of the simulation endpoint as consumed by ResultsPage.jsx:
simulated score, band, triggered indicators and the score delta. -/
structure SimResult where
  simulated_score : Nat
  simulated_band : RiskBand
  score_change : Int
  triggered_indicators : List TriggeredIndicator
  deriving DecidableEq

/-- Modelled from the spec: the missing simulate operation.  It never runs the
Consistency Validator hard rejection, scores the merged input with the same
deterministic engine, and reports the delta against the baseline score. -/
def simulate (b : AssessmentInput) (o : SimOverrides) : SimResult :=
  let base := evaluateUnchecked b
  let sim := evaluateUnchecked (applyOverrides b o)
  { simulated_score := sim.score
    simulated_band := sim.band
    score_change := (sim.score : Int) - (base.score : Int)
    triggered_indicators := sim.triggered_indicators }

/-- A raw numeric field of a request body before validation: none stands for a
non-numeric value, some q for the number q (which may be negative). -/
abbrev RawField := Option ℚ

/-- A raw submission body as received by the engine entry point: the fifteen
fields that the contract requires to be non-negative numbers, plus the typed
remainder. -/
structure RawSubmission where
  tax_year : String
  industry : String
  turnover : RawField
  total_expenses : RawField
  motor_costs : RawField
  mileage_claimed : RawField
  method : String
  home_office_amount : RawField
  phone_internet : RawField
  travel_subsistence : RawField
  marketing : RawField
  loss_this_year : Bool
  loss_last_year : Bool
  has_other_income : Bool
  employment_income : RawField
  rental_income : RawField
  dividends_income : RawField
  interest_income : RawField
  has_foreign_income : Bool
  foreign_income : RawField
  has_capital_allowances : Bool
  capital_allowances_amount : RawField
  capital_allowances_method : String
  has_loss_carry_forward : Bool
  loss_carry_forward_amount : RawField
  report_type : String

/-- The raw fields of a submission that must hold non-negative numbers. -/
def requiredNumeric (r : RawSubmission) : List RawField :=
  [ r.turnover, r.total_expenses, r.motor_costs, r.mileage_claimed,
    r.home_office_amount, r.phone_internet, r.travel_subsistence, r.marketing,
    r.employment_income, r.rental_income, r.dividends_income, r.interest_income,
    r.foreign_income, r.capital_allowances_amount, r.loss_carry_forward_amount ]

/-- A raw field is bad when it is non-numeric or negative. -/
def badField : RawField → Bool
  | none => true
  | some q => decide (q < 0)

/-- The typed input assembled from a raw submission whose fields all passed
validation (each field is then some non-negative number, so getD never takes
its default). -/
def assembleInput (r : RawSubmission) : AssessmentInput :=
  { tax_year := r.tax_year
    industry := r.industry
    turnover := r.turnover.getD 0
    total_expenses := r.total_expenses.getD 0
    motor_costs := r.motor_costs.getD 0
    mileage_claimed := r.mileage_claimed.getD 0
    method := r.method
    home_office_amount := r.home_office_amount.getD 0
    phone_internet := r.phone_internet.getD 0
    travel_subsistence := r.travel_subsistence.getD 0
    marketing := r.marketing.getD 0
    loss_this_year := r.loss_this_year
    loss_last_year := r.loss_last_year
    has_other_income := r.has_other_income
    employment_income := r.employment_income.getD 0
    rental_income := r.rental_income.getD 0
    dividends_income := r.dividends_income.getD 0
    interest_income := r.interest_income.getD 0
    has_foreign_income := r.has_foreign_income
    foreign_income := r.foreign_income.getD 0
    has_capital_allowances := r.has_capital_allowances
    capital_allowances_amount := r.capital_allowances_amount.getD 0
    capital_allowances_method := r.capital_allowances_method
    has_loss_carry_forward := r.has_loss_carry_forward
    loss_carry_forward_amount := r.loss_carry_forward_amount.getD 0
    report_type := r.report_type }

/-- Modelled from the spec: the defensive bounds re-validation of the missing
engine entry point.  A submission with any non-numeric or negative required
field is rejected with MalformedInputError before the Derived Metrics
Calculator is reached. -/
def validateInput (r : RawSubmission) : Except EngineError AssessmentInput :=
  if (requiredNumeric r).any badField then .error .MalformedInputError
  else .ok (assembleInput r)

/-- Modelled from the spec: the full submission path of the engine, validation
followed by the consistency-gated evaluation; a failure propagates as a typed
error and never turns into a fabricated score. -/
def evalSubmission (r : RawSubmission) : Except EngineError ScoreResult :=
  (validateInput r).bind evaluate

/-- A numeric form field as the JSX form holds it: a JS string that is empty,
parses to a number, or is non-empty but non-numeric (parseFloat gives NaN). -/
inductive FormValue where
  | empty
  | numeric (q : ℚ)
  | malformed (s : String)
  deriving DecidableEq

/-- The JS coercion parseFloat(v) applied by the form, with NaN collapsed to 0
by the trailing short-circuit or (source: parseFloat(formData.x) gated by two
vertical bars and 0). -/
def FormValue.parseOr0 : FormValue → ℚ
  | .empty => 0
  | .numeric q => q
  | .malformed _ => 0

/-- JS string truthiness of the raw field text: only the empty string is
falsy. -/
def FormValue.truthy : FormValue → Bool
  | .empty => false
  | .numeric _ => true
  | .malformed _ => true

/-- The formData state of AssessmentPage.jsx (V2 form). -/
structure FormData where
  tax_year : String
  industry : String
  turnover : FormValue
  total_expenses : FormValue
  motor_costs : FormValue
  mileage_claimed : FormValue
  method : String
  home_office_amount : FormValue
  phone_internet : FormValue
  travel_subsistence : FormValue
  marketing : FormValue
  loss_this_year : Bool
  loss_last_year : Bool
  email : String
  report_type : String
  has_other_income : Bool
  employment_income : FormValue
  rental_income : FormValue
  dividends_income : FormValue
  interest_income : FormValue
  has_foreign_income : Bool
  foreign_income : FormValue
  has_capital_allowances : Bool
  capital_allowances_amount : FormValue
  capital_allowances_method : String
  has_loss_carry_forward : Bool
  loss_carry_forward_amount : FormValue
  deriving DecidableEq

/-- The initial formData state of AssessmentPage.jsx. -/
def initialForm : FormData :=
  { tax_year := "2023-24"
    industry := "other"
    turnover := .empty
    total_expenses := .empty
    motor_costs := .empty
    mileage_claimed := .empty
    method := "actual"
    home_office_amount := .empty
    phone_internet := .empty
    travel_subsistence := .empty
    marketing := .empty
    loss_this_year := false
    loss_last_year := false
    email := ""
    report_type := "v2_pro"
    has_other_income := false
    employment_income := .empty
    rental_income := .empty
    dividends_income := .empty
    interest_income := .empty
    has_foreign_income := false
    foreign_income := .empty
    has_capital_allowances := false
    capital_allowances_amount := .empty
    capital_allowances_method := "aia"
    has_loss_carry_forward := false
    loss_carry_forward_amount := .empty }

/-- calculatedProfit of AssessmentPage.jsx: parseFloat of turnover (or 0)
minus parseFloat of total expenses (or 0). -/
def calculatedProfit (f : FormData) : ℚ :=
  f.turnover.parseOr0 - f.total_expenses.parseOr0

/-- hasDataInconsistency of AssessmentPage.jsx: the loss checkbox is ticked
while the computed profit is strictly positive. -/
def hasDataInconsistency (f : FormData) : Bool :=
  f.loss_this_year && decide (0 < calculatedProfit f)

/-- canSubmit of AssessmentPage.jsx: no data inconsistency, and the email and
turnover field texts are truthy. -/
def canSubmit (f : FormData) : Bool :=
  !hasDataInconsistency f && !(f.email == "") && f.turnover.truthy

/-- The disabled condition of the submit button of AssessmentPage.jsx:
isSubmitting or not canSubmit. -/
def submitButtonDisabled (isSubmitting : Bool) (f : FormData) : Bool :=
  isSubmitting || !canSubmit f

/-- The request body built by handleSubmit of AssessmentPage.jsx: the form
data with every numeric field coerced through parseFloat-or-0, plus the
email. -/
structure SubmitPayload where
  email : String
  input : AssessmentInput
  deriving DecidableEq

/-- submitData of AssessmentPage.jsx: the spread of formData with the numeric
coercions applied. -/
def submitData (f : FormData) : SubmitPayload :=
  { email := f.email
    input :=
    { tax_year := f.tax_year
      industry := f.industry
      turnover := f.turnover.parseOr0
      total_expenses := f.total_expenses.parseOr0
      motor_costs := f.motor_costs.parseOr0
      mileage_claimed := f.mileage_claimed.parseOr0
      method := f.method
      home_office_amount := f.home_office_amount.parseOr0
      phone_internet := f.phone_internet.parseOr0
      travel_subsistence := f.travel_subsistence.parseOr0
      marketing := f.marketing.parseOr0
      loss_this_year := f.loss_this_year
      loss_last_year := f.loss_last_year
      has_other_income := f.has_other_income
      employment_income := f.employment_income.parseOr0
      rental_income := f.rental_income.parseOr0
      dividends_income := f.dividends_income.parseOr0
      interest_income := f.interest_income.parseOr0
      has_foreign_income := f.has_foreign_income
      foreign_income := f.foreign_income.parseOr0
      has_capital_allowances := f.has_capital_allowances
      capital_allowances_amount := f.capital_allowances_amount.parseOr0
      capital_allowances_method := f.capital_allowances_method
      has_loss_carry_forward := f.has_loss_carry_forward
      loss_carry_forward_amount := f.loss_carry_forward_amount.parseOr0
      report_type := f.report_type } }

/-- handleSubmit of AssessmentPage.jsx: returns the request it posts, or none
when the data-inconsistency guard stops the submission. -/
def handleSubmit (f : FormData) : Option SubmitPayload :=
  if hasDataInconsistency f then none else some (submitData f)

/-- A submission attempt through the form UI: the submit button must not be
disabled, then handleSubmit runs. -/
def attemptSubmit (isSubmitting : Bool) (f : FormData) : Option SubmitPayload :=
  if submitButtonDisabled isSubmitting f then none else handleSubmit f

/-- The canonical persisted assessment, as fetched by ResultsPage.jsx: the
submitted input together with the ScoreResult persisted at submission time. -/
structure StoredAssessment where
  input : AssessmentInput
  result : ScoreResult
  deriving DecidableEq

/-- The component state of ResultsPage.jsx that the simulation tool touches:
the fetched canonical assessment and the separate simResult slot. -/
structure ResultsState where
  assessment : StoredAssessment
  simResult : Option SimResult
  deriving DecidableEq

/-- runSimulation of ResultsPage.jsx: posts the overrides and stores the
response in the simResult slot; the assessment record is not written. -/
def runSimulationStep (s : ResultsState) (o : SimOverrides) : ResultsState :=
  { s with simResult := some (simulate s.assessment.input o) }

/-- Any sequence of simulation runs from a state. -/
def runSimulations (s : ResultsState) (os : List SimOverrides) : ResultsState :=
  os.foldl runSimulationStep s

/-- displayScore of ResultsPage.jsx: the simulated score when a simulation
result is present, else the canonical persisted score. -/
def displayScore (s : ResultsState) : Nat :=
  match s.simResult with
  | some r => r.simulated_score
  | none => s.assessment.result.score

/-- displayBand of ResultsPage.jsx (displayBand constant): the simulated band
when present, else the canonical band. -/
def displayBand (s : ResultsState) : RiskBand :=
  match s.simResult with
  | some r => r.simulated_band
  | none => s.assessment.result.band

/-- The worked end-to-end example input of spec section 8. -/
def specExampleInput : AssessmentInput :=
  { tax_year := "2023-24"
    industry := "other"
    turnover := 30000
    total_expenses := 24000
    motor_costs := 8000
    mileage_claimed := 12000
    method := "actual"
    home_office_amount := 0
    phone_internet := 0
    travel_subsistence := 0
    marketing := 0
    loss_this_year := false
    loss_last_year := false
    has_other_income := false
    employment_income := 0
    rental_income := 0
    dividends_income := 0
    interest_income := 0
    has_foreign_income := false
    foreign_income := 0
    has_capital_allowances := false
    capital_allowances_amount := 0
    capital_allowances_method := "aia"
    has_loss_carry_forward := false
    loss_carry_forward_amount := 0
    report_type := "v2_pro" }

/-- The loss-consistency-gate test input of spec section 8: loss declared with
turnover 50000 and expenses 10000. -/
def inconsistentInput : AssessmentInput :=
  { specExampleInput with
    turnover := 50000
    total_expenses := 10000
    motor_costs := 0
    mileage_claimed := 0
    loss_this_year := true }

/-- An input whose profit margin is high: turnover 30000, expenses 12000,
profit ratio 0.6. -/
def highMarginInput : AssessmentInput :=
  { specExampleInput with
    total_expenses := 12000
    motor_costs := 0
    mileage_claimed := 0 }

/-- The simulation override that only sets the loss flag. -/
def lossOverride : SimOverrides :=
  { total_expenses := none
    motor_costs := none
    mileage_claimed := none
    loss_this_year := some true }

/-- A raw submission matching the spec example, with every required field
numeric and non-negative. -/
def rawOk : RawSubmission :=
  { tax_year := "2023-24"
    industry := "other"
    turnover := some 30000
    total_expenses := some 24000
    motor_costs := some 8000
    mileage_claimed := some 12000
    method := "actual"
    home_office_amount := some 0
    phone_internet := some 0
    travel_subsistence := some 0
    marketing := some 0
    loss_this_year := false
    loss_last_year := false
    has_other_income := false
    employment_income := some 0
    rental_income := some 0
    dividends_income := some 0
    interest_income := some 0
    has_foreign_income := false
    foreign_income := some 0
    has_capital_allowances := false
    capital_allowances_amount := some 0
    capital_allowances_method := "aia"
    has_loss_carry_forward := false
    loss_carry_forward_amount := some 0
    report_type := "v2_pro" }

/-- A raw submission whose turnover is negative. -/
def rawNegativeTurnover : RawSubmission :=
  { rawOk with turnover := some (-100) }

/-- A form state with the loss checkbox ticked while the figures show a
profit. -/
def inconsistentForm : FormData :=
  { initialForm with
    email := "a@b.co"
    turnover := .numeric 50000
    total_expenses := .numeric 10000
    loss_this_year := true }

/-- A form state with everything filled but the email left empty. -/
def noEmailForm : FormData :=
  { initialForm with turnover := .numeric 30000 }

/-- A form state with an email but the turnover field left empty. -/
def noTurnoverForm : FormData :=
  { initialForm with email := "a@b.co" }

/-- A form state whose figures show a loss. -/
def lossFigureForm : FormData :=
  { initialForm with
    email := "a@b.co"
    turnover := .numeric 10000
    total_expenses := .numeric 15000 }

/-- A consistent baseline: the gate-test figures with the loss flag clear. -/
def baselineInput : AssessmentInput :=
  { inconsistentInput with loss_this_year := false }

/-- C1: when the loss flag is set and the computed profit is strictly
positive, evaluate returns the structured ConsistencyError and the form layer
blocks the submission, so the assessment is never scored; when the profit is
non-positive or the flag is clear, the contradiction check never fires and
evaluate scores normally. -/
theorem c1_consistency_gate :
    (∀ i : AssessmentInput, i.loss_this_year = true →
      0 < (derivedMetrics i).profit →
      evaluate i = .error .ConsistencyError) ∧
    (∀ i : AssessmentInput,
      i.loss_this_year = false ∨ (derivedMetrics i).profit ≤ 0 →
      evaluate i = .ok (evaluateUnchecked i)) ∧
    (∀ (s : Bool) (f : FormData), hasDataInconsistency f = true →
      handleSubmit f = none ∧ attemptSubmit s f = none) := by
  refine ⟨?_, ?_, ?_⟩
  · intro i h1 h2
    rw [evaluate, if_pos ⟨h1, h2⟩]
  · intro i h
    rw [evaluate, if_neg]
    rintro ⟨h1, h2⟩
    rcases h with h | h
    · rw [h1] at h; cases h
    · linarith
  · intro s f h
    have hh : handleSubmit f = none := by rw [handleSubmit, if_pos h]
    refine ⟨hh, ?_⟩
    rw [attemptSubmit]
    split
    · rfl
    · exact hh

/-- Witness for C1 at the concrete inputs of spec section 8. -/
theorem c1_consistency_gate_witness :
    evaluate inconsistentInput = .error .ConsistencyError ∧
    evaluate specExampleInput = .ok (evaluateUnchecked specExampleInput) ∧
    attemptSubmit false inconsistentForm = none :=
  ⟨c1_consistency_gate.1 inconsistentInput rfl
      (by norm_num [derivedMetrics, inconsistentInput, specExampleInput]),
   c1_consistency_gate.2.1 specExampleInput (Or.inl rfl),
   (c1_consistency_gate.2.2 false inconsistentForm
      (by norm_num [hasDataInconsistency, calculatedProfit, inconsistentForm,
        initialForm, FormValue.parseOr0])).2⟩

/-- C2: evaluation is deterministic; two calls of evaluate on the same fixed
AssessmentInput yield the same result, hence the same score, band and ordered
indicator list, and the function takes no randomness, time or I/O input. -/
theorem c2_deterministic :
    ∀ (i : AssessmentInput) (r₁ r₂ : Except EngineError ScoreResult),
      evaluate i = r₁ → evaluate i = r₂ → r₁ = r₂ := by
  intro i r₁ r₂ h1 h2
  rw [← h1, ← h2]

/-- Witness for C2 at the spec section 8 example input. -/
theorem c2_deterministic_witness :
    evaluate specExampleInput = evaluate specExampleInput :=
  c2_deterministic specExampleInput _ _ rfl rfl

/-- C3: the band classifier is a pure function of the score with the fixed
cutoffs LOW on 0 to 24, MODERATE on 25 to 49, HIGH on 50 to 100; any
out-of-range score is clamped to the 0 to 100 interval before banding, so no
score produces an undefined band. -/
theorem c3_band_classifier :
    (∀ s : Int, 0 ≤ s → s < 25 → band s = .LOW) ∧
    (∀ s : Int, 25 ≤ s → s < 50 → band s = .MODERATE) ∧
    (∀ s : Int, 50 ≤ s → s ≤ 100 → band s = .HIGH) ∧
    band 150 = band 100 ∧ band (-10) = band 0 ∧
    (∀ s : Int, band s = band (max 0 (min 100 s))) := by
  refine ⟨?_, ?_, ?_, by decide, by decide, ?_⟩
  · intro s h1 h2
    rw [band, if_pos (by omega)]
  · intro s h1 h2
    rw [band, if_neg (by omega), if_pos (by omega)]
  · intro s h1 h2
    rw [band, if_neg (by omega), if_neg (by omega)]
  · intro s
    rw [band, band]
    have h : max 0 (min 100 (max 0 (min 100 s))) = max 0 (min 100 s) := by omega
    rw [h]

/-- Witness for C3 at the boundary scores of spec section 8. -/
theorem c3_band_classifier_witness :
    band 24 = .LOW ∧ band 25 = .MODERATE ∧ band 49 = .MODERATE ∧
    band 50 = .HIGH ∧ band 0 = .LOW ∧ band 100 = .HIGH :=
  ⟨c3_band_classifier.1 24 (by decide) (by decide),
   c3_band_classifier.2.1 25 (by decide) (by decide),
   c3_band_classifier.2.1 49 (by decide) (by decide),
   c3_band_classifier.2.2.1 50 (by decide) (by decide),
   c3_band_classifier.1 0 (by decide) (by decide),
   c3_band_classifier.2.2.1 100 (by decide) (by decide)⟩

/-- C4: the derived profit is exactly turnover minus total expenses: it
depends on no other field of the form, it may be negative, and the engine
metric agrees with the same formula. -/
theorem c4_derived_profit :
    (∀ f₁ f₂ : FormData, f₁.turnover = f₂.turnover →
      f₁.total_expenses = f₂.total_expenses →
      calculatedProfit f₁ = calculatedProfit f₂) ∧
    (∃ f : FormData, calculatedProfit f < 0) ∧
    (∀ i : AssessmentInput,
      (derivedMetrics i).profit = i.turnover - i.total_expenses) := by
  refine ⟨?_, ⟨lossFigureForm, ?_⟩, fun i => rfl⟩
  · intro f₁ f₂ h1 h2
    rw [calculatedProfit, calculatedProfit, h1, h2]
  · norm_num [calculatedProfit, lossFigureForm, initialForm, FormValue.parseOr0]

/-- Witness for C4: two forms sharing turnover and expenses but differing in
another field have the same derived profit. -/
theorem c4_derived_profit_witness :
    calculatedProfit lossFigureForm =
      calculatedProfit { lossFigureForm with email := "other@b.co" } :=
  c4_derived_profit.1 lossFigureForm { lossFigureForm with email := "other@b.co" } rfl rfl

/-- C5: simulate never fails on consistency: for every baseline and every
override combination it scores the merged input with the unchecked engine and
returns a normal result, even when the merged input carries the loss flag
with a positive profit, in which case evaluate on the same input rejects. -/
theorem c5_simulate_never_fails :
    (∀ (b : AssessmentInput) (o : SimOverrides),
      (simulate b o).simulated_score = (evaluateUnchecked (applyOverrides b o)).score ∧
      (simulate b o).simulated_band = (evaluateUnchecked (applyOverrides b o)).band ∧
      (simulate b o).triggered_indicators
        = (evaluateUnchecked (applyOverrides b o)).triggered_indicators) ∧
    (∀ (b : AssessmentInput) (o : SimOverrides),
      (applyOverrides b o).loss_this_year = true →
      0 < (derivedMetrics (applyOverrides b o)).profit →
      evaluate (applyOverrides b o) = .error .ConsistencyError ∧
      (simulate b o).simulated_score = (evaluateUnchecked (applyOverrides b o)).score) := by
  refine ⟨fun b o => ⟨rfl, rfl, rfl⟩, fun b o h1 h2 => ⟨?_, rfl⟩⟩
  rw [evaluate, if_pos ⟨h1, h2⟩]

/-- Witness for C5: overriding the loss flag onto the consistent gate-test
baseline produces the inconsistent combination, which evaluate rejects while
simulate returns the normal unchecked score. -/
theorem c5_simulate_never_fails_witness :
    evaluate (applyOverrides baselineInput lossOverride) = .error .ConsistencyError ∧
    (simulate baselineInput lossOverride).simulated_score
      = (evaluateUnchecked (applyOverrides baselineInput lossOverride)).score :=
  c5_simulate_never_fails.2 baselineInput lossOverride rfl
    (by norm_num [derivedMetrics, applyOverrides, lossOverride, baselineInput,
      inconsistentInput, specExampleInput])

/-- C6: simulation is ephemeral: any sequence of simulation runs stores its
result only in the separate simResult slot, and the canonical persisted
assessment, with its score, band and triggered indicators, is unchanged. -/
theorem c6_simulation_ephemeral :
    ∀ (s : ResultsState) (os : List SimOverrides),
      (runSimulations s os).assessment = s.assessment ∧
      (runSimulations s os).assessment.result.score = s.assessment.result.score ∧
      (runSimulations s os).assessment.result.band = s.assessment.result.band ∧
      (runSimulations s os).assessment.result.triggered_indicators
        = s.assessment.result.triggered_indicators := by
  have key : ∀ (os : List SimOverrides) (s : ResultsState),
      (runSimulations s os).assessment = s.assessment := by
    intro os
    induction os with
    | nil => intro s; rfl
    | cons o os ih => intro s; exact (ih (runSimulationStep s o)).trans rfl
  intro s os
  exact ⟨key os s, by rw [key os s], by rw [key os s], by rw [key os s]⟩

/-- C7: the simulate operation merges the overrides onto exactly the four
mutable fields, each other field of the baseline is copied unchanged, and the
reported score change is the simulated score minus the baseline score. -/
theorem c7_override_fields :
    ∀ (b : AssessmentInput) (o : SimOverrides),
      (applyOverrides b o).total_expenses = o.total_expenses.getD b.total_expenses ∧
      (applyOverrides b o).motor_costs = o.motor_costs.getD b.motor_costs ∧
      (applyOverrides b o).mileage_claimed = o.mileage_claimed.getD b.mileage_claimed ∧
      (applyOverrides b o).loss_this_year = o.loss_this_year.getD b.loss_this_year ∧
      (applyOverrides b o).tax_year = b.tax_year ∧
      (applyOverrides b o).industry = b.industry ∧
      (applyOverrides b o).turnover = b.turnover ∧
      (applyOverrides b o).method = b.method ∧
      (applyOverrides b o).home_office_amount = b.home_office_amount ∧
      (applyOverrides b o).phone_internet = b.phone_internet ∧
      (applyOverrides b o).travel_subsistence = b.travel_subsistence ∧
      (applyOverrides b o).marketing = b.marketing ∧
      (applyOverrides b o).loss_last_year = b.loss_last_year ∧
      (applyOverrides b o).has_other_income = b.has_other_income ∧
      (applyOverrides b o).employment_income = b.employment_income ∧
      (applyOverrides b o).rental_income = b.rental_income ∧
      (applyOverrides b o).dividends_income = b.dividends_income ∧
      (applyOverrides b o).interest_income = b.interest_income ∧
      (applyOverrides b o).has_foreign_income = b.has_foreign_income ∧
      (applyOverrides b o).foreign_income = b.foreign_income ∧
      (applyOverrides b o).has_capital_allowances = b.has_capital_allowances ∧
      (applyOverrides b o).capital_allowances_amount = b.capital_allowances_amount ∧
      (applyOverrides b o).capital_allowances_method = b.capital_allowances_method ∧
      (applyOverrides b o).has_loss_carry_forward = b.has_loss_carry_forward ∧
      (applyOverrides b o).loss_carry_forward_amount = b.loss_carry_forward_amount ∧
      (applyOverrides b o).report_type = b.report_type ∧
      (simulate b o).score_change =
        ((evaluateUnchecked (applyOverrides b o)).score : Int)
          - ((evaluateUnchecked b).score : Int) := by
  intro b o
  exact ⟨rfl, rfl, rfl, rfl, rfl, rfl, rfl, rfl, rfl, rfl, rfl, rfl, rfl, rfl,
    rfl, rfl, rfl, rfl, rfl, rfl, rfl, rfl, rfl, rfl, rfl, rfl, rfl⟩

/-- C8: the high-profit-margin condition never contributes points: the score
and the triggered indicators do not depend on the contextual-note rules at
all, and whenever the condition holds the contextual note is produced. -/
theorem c8_high_margin_note_only :
    (∀ (rules : List NoteRule) (i : AssessmentInput),
      (evalWith rules i).score = (evaluateUnchecked i).score ∧
      (evalWith rules i).triggered_indicators
        = (evaluateUnchecked i).triggered_indicators) ∧
    (∀ i : AssessmentInput, highMarginRule.cond i (derivedMetrics i) = true →
      highMarginRule.text ∈ (evaluateUnchecked i).contextual_notes) := by
  constructor
  · intro rules i
    exact ⟨rfl, rfl⟩
  · intro i h
    simp [evaluateUnchecked, evalWith, noteTable, List.filterMap_cons, h]

/-- Witness for C8 at a high-margin input. -/
theorem c8_high_margin_note_only_witness :
    highMarginRule.text ∈ (evaluateUnchecked highMarginInput).contextual_notes :=
  c8_high_margin_note_only.2 highMarginInput
    (by norm_num [highMarginRule, derivedMetrics, ratioOrSentinel,
      highMarginThreshold, highMarginInput, specExampleInput])

/-- C9: a submission with a non-numeric or negative value in any field that
must hold a non-negative number is rejected with the typed
MalformedInputError before scoring, and a submission that validates is scored
through evaluate, never coerced into a fabricated score. -/
theorem c9_malformed_rejected :
    (∀ (r : RawSubmission) (v : RawField), v ∈ requiredNumeric r →
      (v = none ∨ ∃ q : ℚ, v = some q ∧ q < 0) →
      validateInput r = .error .MalformedInputError ∧
      evalSubmission r = .error .MalformedInputError) ∧
    (∀ (r : RawSubmission) (i : AssessmentInput),
      validateInput r = .ok i → evalSubmission r = evaluate i) := by
  constructor
  · intro r v hv hbad
    have hb : badField v = true := by
      rcases hbad with h | ⟨q, hq, hneg⟩
      · rw [h]; rfl
      · rw [hq]; simp [badField, hneg]
    have hany : (requiredNumeric r).any badField = true := by
      rw [List.any_eq_true]
      exact ⟨v, hv, hb⟩
    constructor
    · rw [validateInput, if_pos hany]
    · rw [evalSubmission, validateInput, if_pos hany]; rfl
  · intro r i h
    rw [evalSubmission, h]
    rfl

/-- Witness for C9: a submission with a negative turnover is rejected. -/
theorem c9_malformed_rejected_witness :
    validateInput rawNegativeTurnover = .error .MalformedInputError ∧
    evalSubmission rawNegativeTurnover = .error .MalformedInputError :=
  c9_malformed_rejected.1 rawNegativeTurnover (some (-100))
    (by simp [requiredNumeric, rawNegativeTurnover, rawOk])
    (Or.inr ⟨-100, rfl, by norm_num⟩)

/-- C10: the submit gate of the assessment form requires, beyond the absence
of a loss or profit inconsistency, a non-empty email and a non-empty turnover
field; with either empty the submit control is disabled and no submission
request is sent. -/
theorem c10_submit_gate :
    (∀ f : FormData, f.email = "" ∨ f.turnover = FormValue.empty →
      canSubmit f = false ∧
      (∀ s : Bool, submitButtonDisabled s f = true ∧ attemptSubmit s f = none)) ∧
    (∀ f : FormData, canSubmit f = true →
      hasDataInconsistency f = false ∧ f.email ≠ "" ∧ f.turnover.truthy = true) := by
  constructor
  · intro f h
    have hc : canSubmit f = false := by
      rcases h with h | h
      · simp [canSubmit, h]
      · simp [canSubmit, h, FormValue.truthy]
    have hd : ∀ s : Bool, submitButtonDisabled s f = true := by
      intro s
      simp [submitButtonDisabled, hc]
    exact ⟨hc, fun s => ⟨hd s, by rw [attemptSubmit, if_pos (hd s)]⟩⟩
  · intro f h
    simp only [canSubmit, Bool.and_eq_true, Bool.not_eq_true'] at h
    obtain ⟨⟨h1, h2⟩, h3⟩ := h
    refine ⟨h1, ?_, h3⟩
    intro he
    rw [he] at h2
    simp at h2

/-- Witness for C10 at forms missing the email and the turnover. -/
theorem c10_submit_gate_witness :
    canSubmit noEmailForm = false ∧ attemptSubmit false noEmailForm = none ∧
    canSubmit noTurnoverForm = false ∧ attemptSubmit false noTurnoverForm = none :=
  ⟨(c10_submit_gate.1 noEmailForm (Or.inl rfl)).1,
   ((c10_submit_gate.1 noEmailForm (Or.inl rfl)).2 false).2,
   (c10_submit_gate.1 noTurnoverForm (Or.inr rfl)).1,
   ((c10_submit_gate.1 noTurnoverForm (Or.inr rfl)).2 false).2⟩

end HmrcRisk
